import Mathlib

/-!
Verification of the human-face-detection repository's real-time
presentation pipeline, shallowly embedded from the Python sources
`face_detection_yolov12.py`, `face_detection_yolov8.py` and `web_app.py`.
The two detector variants duplicate the same logic line for line; the
embedding below is written once from the YOLOv12 file and, where the
YOLOv8 file differs textually, the difference is noted in place.
Python floats are modelled as exact rationals, wall-clock timestamps as
rationals, and external collaborators (the neural detector, cv2 drawing
primitives, the filesystem) as explicit parameters.
-/

namespace FaceDetect

/-- Python `int(q)` on a float/rational: truncation toward zero.
`Int.tdiv` is T-division, and the denominator of a `Rat` is positive. -/
def ratTZ (q : ℚ) : ℤ := Int.tdiv q.num (q.den : ℤ)

/-- A raw bounding box as produced by the external detector after
`map(int, box.xyxy[0] ...)`: four integer pixel coordinates plus a
confidence score (`float(box.conf[0] ...)`). -/
structure RawBox where
  x1 : ℤ
  y1 : ℤ
  x2 : ℤ
  y2 : ℤ
  conf : ℚ
deriving DecidableEq, Repr

/-- One detection record, embedding the dict literal appended in
`detect_faces` / `detect_faces_optimized` (both files, identical). -/
structure Detection where
  x1 : ℤ
  y1 : ℤ
  x2 : ℤ
  y2 : ℤ
  confidence : ℚ
  w : ℤ
  h : ℤ
  cx : ℤ
  cy : ℤ
deriving DecidableEq, Repr

/-- Build the detection dict from the final coordinates; Python `//` is
floor division, hence `Int.fdiv`. -/
def mkDetection (x1 y1 x2 y2 : ℤ) (conf : ℚ) : Detection :=
  { x1 := x1, y1 := y1, x2 := x2, y2 := y2, confidence := conf,
    w := x2 - x1, h := y2 - y1,
    cx := Int.fdiv (x1 + x2) 2, cy := Int.fdiv (y1 + y2) 2 }

/-- The external `self.yolo(...)` call: it either returns a list of raw
boxes or raises (modelled by `Except.error` carrying the message). -/
abbrev YoloResult := Except String (List RawBox)

/-- `YOLOv12FaceDetector.detect_faces` (lines 40-64): the whole body sits
in a `try`; a raising detector call is caught, `"Detection error"` is
printed, and the list accumulated so far (empty, since the call is the
first statement that can raise) is returned. Returns the detections
paired with the log lines printed. -/
def detect_faces (res : YoloResult) : List Detection × List String :=
  match res with
  | .error e => ([], ["Detection error: " ++ e])
  | .ok boxes => (boxes.map (fun b => mkDetection b.x1 b.y1 b.x2 b.y2 b.conf), [])

/-- The scale computed at lines 70-77: `max_width / width` when
`width > max_width`, else `1.0`. -/
def scaleOf (width max_width : ℤ) : ℚ :=
  if width > max_width then (max_width : ℚ) / (width : ℚ) else 1

/-- Coordinate rescaling at lines 86-92: applied only when `scale < 1.0`,
each coordinate becomes `int(v / scale)` (truncation toward zero). -/
def rescaleCoord (scale : ℚ) (v : ℤ) : ℤ :=
  if scale < 1 then ratTZ ((v : ℚ) / scale) else v

/-- `YOLOv12FaceDetector.detect_faces_optimized` (lines 66-109): compute
the scale from the frame width, run the detector on the (possibly
downscaled) image, rescale every coordinate when `scale < 1.0`, and build
each record from the final coordinates. A raising detector call is caught
as in `detect_faces`. -/
def detect_faces_optimized (width max_width : ℤ) (res : YoloResult) :
    List Detection × List String :=
  match res with
  | .error e => ([], ["Detection error: " ++ e])
  | .ok boxes =>
      let scale := scaleOf width max_width
      (boxes.map (fun b =>
        mkDetection (rescaleCoord scale b.x1) (rescaleCoord scale b.y1)
          (rescaleCoord scale b.x2) (rescaleCoord scale b.y2) b.conf), [])

/-- The cache read `self.current_detections if self.current_detections
else []` (line 228): `None` and the empty list are falsy. -/
def cacheGet : Option (List Detection) → List Detection
  | none => []
  | some l => if l = [] then [] else l

/-- The mutable GUI state carried across `update_frame` ticks
(`WebcamFaceDetectionGUI.__init__`, lines 150-156). -/
structure LoopState where
  frame_count : ℕ
  detection_count : ℕ
  fps : ℚ
  detection_fps : ℚ
  last_time : ℚ
  last_detection_time : ℚ
  current_detections : Option (List Detection)
deriving DecidableEq, Repr

/-- Initial state: counters zero, rates zero, both window anchors at the
construction time, no cached detections. -/
def initState (t0 : ℚ) : LoopState :=
  { frame_count := 0, detection_count := 0, fps := 0, detection_fps := 0,
    last_time := t0, last_detection_time := t0, current_detections := none }

/-- The detection half of `update_frame` (lines 216-226): when
`frame_count % skip_frames == 0`, store the fresh detections, bump the
detection counter, and close the detection-rate window if a second has
elapsed. `det` is the list the detector returned on this tick, `t` the
wall-clock time. -/
def detectPhase (N : ℕ) (det : List Detection) (t : ℚ) (s : LoopState) :
    LoopState :=
  if s.frame_count % N == 0 then
    let dc := s.detection_count + 1
    if t - s.last_detection_time ≥ 1 then
      { s with current_detections := some det,
               detection_fps := (dc : ℚ) / (t - s.last_detection_time),
               detection_count := 0, last_detection_time := t }
    else
      { s with current_detections := some det, detection_count := dc }
  else s

/-- The render-rate half of `update_frame` (lines 245-249): increment
`frame_count` and, once a second has elapsed, publish the rate, reset the
counter to zero and reopen the window. -/
def renderPhase (t : ℚ) (s : LoopState) : LoopState :=
  let fc := s.frame_count + 1
  if t - s.last_time ≥ 1 then
    { s with frame_count := 0, fps := (fc : ℚ) / (t - s.last_time),
             last_time := t }
  else
    { s with frame_count := fc }

/-- One full `update_frame` tick's state effect. -/
def stepFrame (N : ℕ) (det : List Detection) (t : ℚ) (s : LoopState) :
    LoopState :=
  renderPhase t (detectPhase N det t s)

/-- The detections actually drawn on this tick (lines 217-228): fresh ones
on a detect frame, the cache read on a skip frame. -/
def renderedDet (N : ℕ) (det : List Detection) (s : LoopState) :
    List Detection :=
  if s.frame_count % N == 0 then det else cacheGet s.current_detections

/-- Run a list of `(time, detector output)` frames, recording on which
frames the `should_detect` test fired. -/
def detectFlags (N : ℕ) : LoopState → List (ℚ × List Detection) → List Bool
  | _, [] => []
  | s, f :: fs =>
      (s.frame_count % N == 0) :: detectFlags N (stepFrame N f.2 f.1 s) fs

/-- A windowed rate counter, abstracting the inlined FPS bookkeeping
(`count`, window anchor, last published rate). -/
structure RateWindow where
  count : ℕ
  window_start : ℚ
  rate : ℚ
deriving DecidableEq, Repr

/-- One tick of the rate meter at time `t`: increment the counter; if at
least one second has elapsed since the window opened, publish
`count / elapsed`, zero the counter and reopen the window at `t`. -/
def RateWindow.tick (w : RateWindow) (t : ℚ) : RateWindow :=
  let c := w.count + 1
  if t - w.window_start ≥ 1 then
    { count := 0, window_start := t, rate := (c : ℚ) / (t - w.window_start) }
  else
    { count := c, window_start := w.window_start, rate := w.rate }

/-- The render-rate meter's fields inside the loop state. -/
def renderMeter (s : LoopState) : RateWindow :=
  { count := s.frame_count, window_start := s.last_time, rate := s.fps }

/-- The detection-rate meter's fields inside the loop state. -/
def detectionMeter (s : LoopState) : RateWindow :=
  { count := s.detection_count, window_start := s.last_detection_time,
    rate := s.detection_fps }

/-!
Compositor (`draw_faces`, yolov12 lines 111-137, yolov8 lines 135-171).
Image buffers live in an explicit heap of references so that in-place
mutation by the cv2 primitives is visible: `image.copy()` allocates a
fresh buffer, and every `cv2.rectangle` / `cv2.putText` call writes to
the buffer it is handed. The pixel effect of each primitive is an
arbitrary parameter function, since cv2 is an external collaborator.
-/

/-- A heap of buffers of content `α`, addressed by natural references;
`next` is the first unallocated reference. -/
structure Heap (α : Type) where
  next : ℕ
  mem : ℕ → α

/-- Allocate a fresh buffer holding `v`, returning the new heap and the
fresh reference. -/
def Heap.alloc {α : Type} (h : Heap α) (v : α) : Heap α × ℕ :=
  ({ next := h.next + 1,
     mem := fun n => if n = h.next then v else h.mem n }, h.next)

/-- Mutate the buffer at reference `r` in place by `f`. -/
def Heap.write {α : Type} (h : Heap α) (r : ℕ) (f : α → α) : Heap α :=
  { h with mem := fun n => if n = r then f (h.mem n) else h.mem n }

/-- The loop body of `draw_faces` for one detection: draw the rectangle
on `result`; when confidence display is on, also draw the filled label
backdrop and the confidence text on `result`. -/
def drawDetStep {α : Type} (rectFn backdropFn textFn : Detection → α → α)
    (show_confidence : Bool) (r : ℕ) (h : Heap α) (det : Detection) :
    Heap α :=
  let h1 := h.write r (rectFn det)
  if show_confidence then
    (h1.write r (backdropFn det)).write r (textFn det)
  else h1

/-- `draw_faces`: `result = image.copy()`, then all drawing calls target
`result`, which is returned. -/
def draw_faces {α : Type} (rectFn backdropFn textFn : Detection → α → α)
    (show_confidence : Bool) (h : Heap α) (image : ℕ)
    (detections : List Detection) : Heap α × ℕ :=
  let ar := h.alloc (h.mem image)
  (detections.foldl (drawDetStep rectFn backdropFn textFn show_confidence ar.2)
    ar.1, ar.2)

/-!
Session stop (`WebcamFaceDetectionGUI.on_quit`, yolov12 lines 269-274,
yolov8 lines 339-345). The body is `running = False; if self.cap:
self.cap.release(); self.root.quit(); self.root.destroy()`. We count the
release/quit/destroy calls issued to the external resources.
-/

/-- The observable session state for stop handling: `cap` is `some ()`
when `self.cap` holds a capture object (always, once the session opened;
the code never sets it back to `None`). -/
structure GuiSession where
  running : Bool
  cap : Option Unit
  capReleases : ℕ
  quitCalls : ℕ
  destroyCalls : ℕ
deriving DecidableEq, Repr

/-- `on_quit`: clear `running`, release the capture when present, then
quit and destroy the root window. Nothing guards against re-entry: `cap`
stays set, so a second call releases again and destroys again. -/
def on_quit (s : GuiSession) : GuiSession :=
  { s with running := false,
           capReleases :=
             if s.cap.isSome then s.capReleases + 1 else s.capReleases,
           quitCalls := s.quitCalls + 1,
           destroyCalls := s.destroyCalls + 1 }

/-!
Web route model (`web_app.py`): `secure_filename` (werkzeug, POSIX, on
ASCII input), the model allow-list, `get_detector` and the model
selection of `/api/detect-image`.
-/

/-- Python `str.split()` whitespace. -/
def isPySpace (c : Char) : Bool :=
  c == ' ' || c == '\t' || c == '\n' || c == '\r' || c == '\x0b' || c == '\x0c'

/-- The character class kept by werkzeug's filename regex `[A-Za-z0-9_.-]`. -/
def keepChar (c : Char) : Bool :=
  c.isAlpha || c.isDigit || c == '_' || c == '.' || c == '-'

/-- Characters stripped from both ends by `.strip("._")`. -/
def stripDotUnderscore (c : Char) : Bool := c == '.' || c == '_'

/-- werkzeug `secure_filename` on ASCII input under POSIX: drop non-ASCII
codepoints, turn the path separator `/` into a space, split on
whitespace runs and re-join with `_`, drop every character outside
`[A-Za-z0-9_.-]`, and strip leading/trailing `.` and `_`. (The Windows
reserved-device rename does not apply under POSIX.) -/
def secure_filename (s : String) : String :=
  let ascii := s.data.filter (fun c => c.toNat < 128)
  let nosep := ascii.map (fun c => if c == '/' then ' ' else c)
  let words := (nosep.splitOnP isPySpace).filter (fun w => w ≠ [])
  let joined := List.intercalate ['_'] words
  let kept := joined.filter keepChar
  String.mk (((kept.dropWhile stripDotUnderscore).reverse.dropWhile
    stripDotUnderscore).reverse)

/-- `ALLOWED_MODELS` (web_app.py lines 26-31). -/
def ALLOWED_MODELS : List String :=
  ["yolov12n-face.pt", "yolov12s-face.pt", "yolov12m-face.pt",
   "yolov12l-face.pt"]

/-- What `get_detector` does, as seen by its caller: return a detector
for a model name, or raise `ValueError` / `FileNotFoundError`. -/
inductive DetectorOutcome where
  | valueError (msg : String)
  | fileNotFoundError (msg : String)
  | ok (model : String)
deriving DecidableEq, Repr

/-- `get_detector` (web_app.py lines 41-69). Filesystem behaviour is
parameterised: `cache` holds the keys of `detector_cache`,
`resolveRaises` says whether `Path.resolve` raised, `insideRoot` whether
the resolved path stayed under the models directory, `fileExists`
whether the model file exists. Note the `ValueError` raised for a
symlink violation sits inside the `try` block, so it is caught by
`except Exception` and re-raised as `FileNotFoundError`; the only
`ValueError` that escapes is the allow-list rejection. -/
def get_detector (cache : List String)
    (resolveRaises insideRoot fileExists : Bool) (model_name : String) :
    DetectorOutcome :=
  let safe := secure_filename model_name
  if safe ∈ ALLOWED_MODELS then
    if safe ∈ cache then .ok safe
    else if resolveRaises then .fileNotFoundError "Model path error"
    else if insideRoot then
      if fileExists then .ok safe
      else .fileNotFoundError "Model not found"
    else
      .fileNotFoundError "Model path error: Invalid model path (Symlink violation)"
  else .valueError ("Unsupported model: " ++ safe)

/-- The model selection of `/api/detect-image` (web_app.py lines
109-116): `request.form.get('model', 'yolov12l-face.pt')`, then silently
fall back to the default when the requested name is not allowed. -/
def chooseModelImage (form_model : Option String) : String :=
  let model := form_model.getD "yolov12l-face.pt"
  if model ∈ ALLOWED_MODELS then model else "yolov12l-face.pt"

/-! Helper lemmas shared by the claim theorems. -/

theorem ratTZ_intCast (n : ℤ) : ratTZ (n : ℚ) = n := by
  simp [ratTZ, Rat.num_intCast, Rat.den_intCast, Int.tdiv_one]

theorem mkDetection_fields (x1 y1 x2 y2 : ℤ) (c : ℚ) :
    (mkDetection x1 y1 x2 y2 c).w =
        (mkDetection x1 y1 x2 y2 c).x2 - (mkDetection x1 y1 x2 y2 c).x1 ∧
      (mkDetection x1 y1 x2 y2 c).h =
        (mkDetection x1 y1 x2 y2 c).y2 - (mkDetection x1 y1 x2 y2 c).y1 ∧
      (mkDetection x1 y1 x2 y2 c).cx =
        Int.fdiv ((mkDetection x1 y1 x2 y2 c).x1 + (mkDetection x1 y1 x2 y2 c).x2) 2 ∧
      (mkDetection x1 y1 x2 y2 c).cy =
        Int.fdiv ((mkDetection x1 y1 x2 y2 c).y1 + (mkDetection x1 y1 x2 y2 c).y2) 2 :=
  ⟨rfl, rfl, rfl, rfl⟩

theorem scaleOf_of_le {W M : ℤ} (h : W ≤ M) : scaleOf W M = 1 := by
  simp [scaleOf, not_lt.2 h]

theorem rescaleCoord_one (v : ℤ) : rescaleCoord 1 v = v := by
  simp [rescaleCoord]

theorem cacheGet_some (l : List Detection) : cacheGet (some l) = l := by
  rcases l with _ | _ <;> simp [cacheGet]

theorem detectPhase_frame_count (N : ℕ) (det : List Detection) (t : ℚ)
    (s : LoopState) : (detectPhase N det t s).frame_count = s.frame_count := by
  unfold detectPhase; split <;> (try split) <;> rfl

theorem detectPhase_last_time (N : ℕ) (det : List Detection) (t : ℚ)
    (s : LoopState) : (detectPhase N det t s).last_time = s.last_time := by
  unfold detectPhase; split <;> (try split) <;> rfl

theorem detectPhase_fps (N : ℕ) (det : List Detection) (t : ℚ)
    (s : LoopState) : (detectPhase N det t s).fps = s.fps := by
  unfold detectPhase; split <;> (try split) <;> rfl

theorem detectPhase_skip (N : ℕ) (det : List Detection) (t : ℚ)
    (s : LoopState) (h : (s.frame_count % N == 0) = false) :
    detectPhase N det t s = s := by
  unfold detectPhase
  simp [h]

theorem detectPhase_detect_cache (N : ℕ) (det : List Detection) (t : ℚ)
    (s : LoopState) (h : (s.frame_count % N == 0) = true) :
    (detectPhase N det t s).current_detections = some det := by
  unfold detectPhase
  rw [if_pos h]
  split <;> rfl

theorem renderPhase_cache (t : ℚ) (s : LoopState) :
    (renderPhase t s).current_detections = s.current_detections := by
  unfold renderPhase; split <;> rfl

theorem renderPhase_no_reset (t : ℚ) (s : LoopState) (h : t - s.last_time < 1) :
    (renderPhase t s).frame_count = s.frame_count + 1 ∧
      (renderPhase t s).last_time = s.last_time := by
  unfold renderPhase
  rw [if_neg (not_le.2 h)]
  exact ⟨rfl, rfl⟩

/-- C2: with inference cap `M > 0`, a frame of width `W > M` gets scale
factor `M/W` and every box coordinate of the optimized detection is the
raw coordinate divided by that scale factor, truncated toward zero; for
`W ≤ M` the scale factor is exactly `1` and boxes pass through
unchanged; in particular `W = 1280`, `M = 640` gives scale `1/2` and a
raw box `(100,100,200,200)` rescales to `(200,200,400,400)`. -/
theorem C2_coordinate_rescaling :
    (∀ W M : ℤ, 0 < M → M < W →
        scaleOf W M = (M : ℚ) / (W : ℚ) ∧
        ∀ boxes : List RawBox,
          (detect_faces_optimized W M (.ok boxes)).1 =
            boxes.map (fun b =>
              mkDetection (ratTZ ((b.x1 : ℚ) / scaleOf W M))
                (ratTZ ((b.y1 : ℚ) / scaleOf W M))
                (ratTZ ((b.x2 : ℚ) / scaleOf W M))
                (ratTZ ((b.y2 : ℚ) / scaleOf W M)) b.conf)) ∧
    (∀ W M : ℤ, W ≤ M →
        scaleOf W M = 1 ∧
        ∀ boxes : List RawBox,
          (detect_faces_optimized W M (.ok boxes)).1 =
            boxes.map (fun b => mkDetection b.x1 b.y1 b.x2 b.y2 b.conf)) ∧
    scaleOf 1280 640 = 1/2 ∧
    (detect_faces_optimized 1280 640
        (.ok [⟨100, 100, 200, 200, 9/10⟩])).1 =
      [mkDetection 200 200 400 400 (9/10)] := by
  have h1280 : scaleOf 1280 640 = 1/2 := by
    norm_num [scaleOf]
  refine ⟨?_, ?_, h1280, ?_⟩
  · intro W M hM hMW
    have hscale : scaleOf W M = (M : ℚ) / (W : ℚ) := by
      simp [scaleOf, hMW]
    have hW : (0 : ℚ) < (W : ℚ) := by exact_mod_cast lt_trans hM hMW
    have hlt : (M : ℚ) / (W : ℚ) < 1 := by
      rw [div_lt_one hW]; exact_mod_cast hMW
    refine ⟨hscale, fun boxes => ?_⟩
    simp only [detect_faces_optimized, hscale, rescaleCoord, if_pos hlt]
  · intro W M h
    refine ⟨scaleOf_of_le h, fun boxes => ?_⟩
    simp only [detect_faces_optimized, scaleOf_of_le h, rescaleCoord_one]
  · simp only [detect_faces_optimized, h1280, rescaleCoord, List.map_cons,
      List.map_nil]
    norm_num [rescaleCoord, ratTZ, Int.tdiv_one]

/-- Witness for C2 at `W = 1280` / `W = 640`, `M = 640`. -/
theorem C2_coordinate_rescaling_witness :
    (0 : ℤ) < 640 ∧ (640 : ℤ) < 1280 ∧ (640 : ℤ) ≤ 640 ∧
    scaleOf 1280 640 = (640 : ℚ) / (1280 : ℚ) ∧ scaleOf 640 640 = 1 ∧
    (detect_faces_optimized 640 640 (.ok [⟨1, 2, 3, 4, 1⟩])).1 =
      [mkDetection 1 2 3 4 1] := by
  refine ⟨by decide, by decide, by decide, ?_, ?_, ?_⟩
  · exact (C2_coordinate_rescaling.1 1280 640 (by decide) (by decide)).1
  · exact (C2_coordinate_rescaling.2.1 640 640 (by decide)).1
  · rw [(C2_coordinate_rescaling.2.1 640 640 (by decide)).2 [⟨1, 2, 3, 4, 1⟩]]
    rfl

/-- C3: every record produced by `detect_faces` or
`detect_faces_optimized` (after any rescaling) has derived fields
consistent with its stored coordinates: `w = x2-x1`, `h = y2-y1`,
`cx = ⌊(x1+x2)/2⌋`, `cy = ⌊(y1+y2)/2⌋`. -/
theorem C3_derived_fields (res : YoloResult) (W M : ℤ) (d : Detection)
    (hmem : d ∈ (detect_faces res).1 ∨ d ∈ (detect_faces_optimized W M res).1) :
    d.w = d.x2 - d.x1 ∧ d.h = d.y2 - d.y1 ∧
      d.cx = Int.fdiv (d.x1 + d.x2) 2 ∧ d.cy = Int.fdiv (d.y1 + d.y2) 2 := by
  rcases res with e | boxes
  · rcases hmem with h | h <;> simp [detect_faces, detect_faces_optimized] at h
  · rcases hmem with h | h
    · simp only [detect_faces, List.mem_map] at h
      obtain ⟨b, -, rfl⟩ := h
      exact mkDetection_fields _ _ _ _ _
    · simp only [detect_faces_optimized, List.mem_map] at h
      obtain ⟨b, -, rfl⟩ := h
      exact mkDetection_fields _ _ _ _ _

/-- Witness for C3 on the rescaled box of the C2 scenario. -/
theorem C3_derived_fields_witness :
    (mkDetection 200 200 400 400 (9/10)) ∈
        (detect_faces_optimized 1280 640 (.ok [⟨100, 100, 200, 200, 9/10⟩])).1 ∧
    (mkDetection 200 200 400 400 (9/10)).w =
        (mkDetection 200 200 400 400 (9/10)).x2 -
          (mkDetection 200 200 400 400 (9/10)).x1 ∧
      (mkDetection 200 200 400 400 (9/10)).h =
        (mkDetection 200 200 400 400 (9/10)).y2 -
          (mkDetection 200 200 400 400 (9/10)).y1 ∧
      (mkDetection 200 200 400 400 (9/10)).cx =
        Int.fdiv ((mkDetection 200 200 400 400 (9/10)).x1 +
          (mkDetection 200 200 400 400 (9/10)).x2) 2 ∧
      (mkDetection 200 200 400 400 (9/10)).cy =
        Int.fdiv ((mkDetection 200 200 400 400 (9/10)).y1 +
          (mkDetection 200 200 400 400 (9/10)).y2) 2 := by
  have hm : (mkDetection 200 200 400 400 (9/10 : ℚ)) ∈
      (detect_faces_optimized 1280 640 (.ok [⟨100, 100, 200, 200, 9/10⟩])).1 := by
    norm_num [detect_faces_optimized, scaleOf, rescaleCoord, ratTZ,
      Int.tdiv_one, mkDetection]
  exact ⟨hm, C3_derived_fields (.ok [⟨100, 100, 200, 200, 9/10⟩]) 1280 640 _
    (Or.inr hm)⟩

/-- C5: reading the detection cache before any detection has been stored
yields the empty list (never an error value — the read is total): the
initial state holds `none`, the falsy-read maps `none` to `[]`, so every
skip frame before the first detect frame renders with `[]`; after a
store the cache read returns the stored list verbatim, and skip frames
reuse it unchanged. -/
theorem C5_cache_empty_before_first_put :
    cacheGet none = [] ∧
    (∀ t0 : ℚ, (initState t0).current_detections = none) ∧
    (∀ l : List Detection, cacheGet (some l) = l) ∧
    (∀ (N : ℕ) (det : List Detection) (s : LoopState),
        (s.frame_count % N == 0) = false → s.current_detections = none →
        renderedDet N det s = []) ∧
    (∀ (N : ℕ) (det : List Detection) (t : ℚ) (s : LoopState),
        ((s.frame_count % N == 0) = true →
          (stepFrame N det t s).current_detections = some det) ∧
        ((s.frame_count % N == 0) = false →
          renderedDet N det s = cacheGet s.current_detections ∧
          (stepFrame N det t s).current_detections = s.current_detections)) := by
  refine ⟨rfl, fun t0 => rfl, cacheGet_some, ?_, ?_⟩
  · intro N det s hskip hnone
    simp [renderedDet, hskip, hnone, cacheGet]
  · intro N det t s
    constructor
    · intro hdet
      rw [stepFrame, renderPhase_cache, detectPhase_detect_cache N det t s hdet]
    · intro hskip
      refine ⟨by simp [renderedDet, hskip], ?_⟩
      rw [stepFrame, renderPhase_cache, detectPhase_skip N det t s hskip]

/-- Witness for C5: a skip frame with an empty cache renders `[]`, and a
detect frame stores its detections. -/
theorem C5_cache_empty_before_first_put_witness :
    renderedDet 2 [] { initState 0 with frame_count := 1 } = [] ∧
      (stepFrame 2 [mkDetection 0 0 1 1 1] 0 (initState 0)).current_detections =
        some [mkDetection 0 0 1 1 1] := by
  refine ⟨?_, ?_⟩
  · exact C5_cache_empty_before_first_put.2.2.2.1 2 []
      { initState 0 with frame_count := 1 } (by decide) rfl
  · exact (C5_cache_empty_before_first_put.2.2.2.2 2
      [mkDetection 0 0 1 1 1] 0 (initState 0)).1 (by decide)

/-- C6: when the external detector call raises, `detect_faces` and
`detect_faces_optimized` return the empty detection list together with
the printed diagnostic; both embeddings are total functions into plain
pairs, i.e. the exception is caught inside and never propagated. -/
theorem C6_detector_failure_absorbed (e : String) (W M : ℤ) :
    detect_faces (.error e) = ([], ["Detection error: " ++ e]) ∧
      detect_faces_optimized W M (.error e) = ([], ["Detection error: " ++ e]) :=
  ⟨rfl, rfl⟩

/-- C7 counterexample: at source width `0` (≤ 0) with cap `640`, the
optimized path does not reject the frame — it takes the no-resize branch
(`scale = 1.0`), proceeds, and passes a detector box through unchanged.
No `InvalidFrameError` exists in the code. -/
theorem C7_counterexample :
    scaleOf 0 640 = 1 ∧
    (detect_faces_optimized 0 640 (.ok [⟨100, 100, 200, 200, 1/2⟩])).1 =
      [mkDetection 100 100 200 200 (1/2)] := by
  constructor
  · norm_num [scaleOf]
  · simp [detect_faces_optimized, scaleOf, rescaleCoord]

/-- C7 amended: for every frame of width `W ≤ 0` (cap `M ≥ 0`) the
optimized detection path proceeds with scale factor exactly `1` instead
of rejecting: a raising detector call is absorbed into an empty list,
and returned boxes pass through unchanged. -/
theorem C7_degenerate_width_not_rejected (W M : ℤ) (hW : W ≤ 0) (hM : 0 ≤ M) :
    scaleOf W M = 1 ∧
    (∀ e : String,
        detect_faces_optimized W M (.error e) = ([], ["Detection error: " ++ e])) ∧
    (∀ boxes : List RawBox,
        (detect_faces_optimized W M (.ok boxes)).1 =
          boxes.map (fun b => mkDetection b.x1 b.y1 b.x2 b.y2 b.conf)) := by
  have h : W ≤ M := le_trans hW hM
  refine ⟨scaleOf_of_le h, fun e => rfl, fun boxes => ?_⟩
  simp only [detect_faces_optimized, scaleOf_of_le h, rescaleCoord_one]

/-- Witness for the amended C7 at width `0`, cap `640`. -/
theorem C7_degenerate_width_not_rejected_witness :
    (0 : ℤ) ≤ 0 ∧ (0 : ℤ) ≤ 640 ∧ scaleOf 0 640 = 1 ∧
    (detect_faces_optimized 0 640 (.ok [⟨5, 6, 7, 8, 1⟩])).1 =
      [mkDetection 5 6 7 8 1] := by
  refine ⟨by decide, by decide,
    (C7_degenerate_width_not_rejected 0 640 (by decide) (by decide)).1, ?_⟩
  rw [(C7_degenerate_width_not_rejected 0 640 (by decide) (by decide)).2.2
    [⟨5, 6, 7, 8, 1⟩]]
  rfl

/-- C9 counterexample: starting from a freshly running session (capture
present, no releases yet), calling `on_quit` twice issues two
`cap.release()` calls and two `root.destroy()` calls — not one. -/
theorem C9_counterexample :
    (on_quit (on_quit ⟨true, some (), 0, 0, 0⟩)).capReleases = 2 ∧
      (on_quit (on_quit ⟨true, some (), 0, 0, 0⟩)).destroyCalls = 2 := by
  decide

/-- C9 amended: `on_quit` clears `running` and releases the capture once
per invocation — the capture reference is never cleared, so a second
stop call releases (and destroys) a second time; stop is not
exactly-once idempotent. -/
theorem C9_stop_releases_every_call (s : GuiSession)
    (hc : s.cap.isSome = true) :
    (on_quit s).running = false ∧
      (on_quit s).cap = s.cap ∧
      (on_quit s).capReleases = s.capReleases + 1 ∧
      (on_quit (on_quit s)).capReleases = s.capReleases + 2 ∧
      (on_quit (on_quit s)).destroyCalls = s.destroyCalls + 2 := by
  simp [on_quit, hc]

/-- Witness for the amended C9 on a fresh running session. -/
theorem C9_stop_releases_every_call_witness :
    (GuiSession.mk true (some ()) 0 0 0).cap.isSome = true ∧
    (on_quit ⟨true, some (), 0, 0, 0⟩).running = false ∧
      (on_quit ⟨true, some (), 0, 0, 0⟩).cap =
        (GuiSession.mk true (some ()) 0 0 0).cap ∧
      (on_quit ⟨true, some (), 0, 0, 0⟩).capReleases = 0 + 1 ∧
      (on_quit (on_quit ⟨true, some (), 0, 0, 0⟩)).capReleases = 0 + 2 ∧
      (on_quit (on_quit ⟨true, some (), 0, 0, 0⟩)).destroyCalls = 0 + 2 :=
  ⟨by decide, C9_stop_releases_every_call ⟨true, some (), 0, 0, 0⟩ (by decide)⟩

theorem Heap.write_mem_ne {α : Type} (h : Heap α) (r n : ℕ) (f : α → α)
    (hne : n ≠ r) : (h.write r f).mem n = h.mem n := by
  simp [Heap.write, hne]

theorem foldl_drawDetStep_mem {α : Type}
    (rectFn backdropFn textFn : Detection → α → α) (sc : Bool) (r n : ℕ)
    (hne : n ≠ r) :
    ∀ (l : List Detection) (h : Heap α),
      (l.foldl (drawDetStep rectFn backdropFn textFn sc r) h).mem n = h.mem n := by
  intro l
  induction l with
  | nil => intro h; rfl
  | cons d ds ih =>
    intro h
    rw [List.foldl_cons, ih]
    unfold drawDetStep
    split
    · rw [Heap.write_mem_ne _ _ _ _ hne, Heap.write_mem_ne _ _ _ _ hne,
        Heap.write_mem_ne _ _ _ _ hne]
    · rw [Heap.write_mem_ne _ _ _ _ hne]

/-- C8: for every allocated input buffer, every detection list and every
behaviour of the external drawing primitives, `draw_faces` returns a
newly allocated result buffer (distinct from the input reference) and
after the call the input buffer's content is unchanged — all drawing
writes target the copy. -/
theorem C8_draw_faces_pure {α : Type}
    (rectFn backdropFn textFn : Detection → α → α) (show_confidence : Bool)
    (h : Heap α) (image : ℕ) (detections : List Detection)
    (himg : image < h.next) :
    (draw_faces rectFn backdropFn textFn show_confidence h image detections).2
        ≠ image ∧
    (draw_faces rectFn backdropFn textFn show_confidence h image
        detections).1.mem image = h.mem image := by
  have hne : image ≠ h.next := Nat.ne_of_lt himg
  constructor
  · exact fun he => hne he.symm
  · show (detections.foldl
        (drawDetStep rectFn backdropFn textFn show_confidence h.next)
        (h.alloc (h.mem image)).1).mem image = h.mem image
    rw [foldl_drawDetStep_mem _ _ _ _ _ _ hne]
    simp [Heap.alloc, hne]

/-- Witness for C8 on a one-buffer heap of natural-number contents. -/
theorem C8_draw_faces_pure_witness :
    (0 : ℕ) < (Heap.mk 1 (fun _ => 7) : Heap ℕ).next ∧
    (draw_faces (fun _ x => x + 1) (fun _ x => x + 2) (fun _ x => x + 3) true
        (Heap.mk 1 (fun _ => 7)) 0 [mkDetection 0 0 1 1 1]).2 ≠ 0 ∧
    (draw_faces (fun _ x => x + 1) (fun _ x => x + 2) (fun _ x => x + 3) true
        (Heap.mk 1 (fun _ => 7)) 0 [mkDetection 0 0 1 1 1]).1.mem 0 =
      (Heap.mk 1 (fun _ => 7) : Heap ℕ).mem 0 :=
  ⟨by decide, C8_draw_faces_pure _ _ _ _ _ _ _ (by decide)⟩

theorem secure_filename_allowed :
    ∀ m ∈ ALLOWED_MODELS, secure_filename m = m := by
  decide

/-- C10: `/api/detect-image` silently substitutes the default
`yolov12l-face.pt` for any disallowed model name and proceeds, so the
name it hands to `get_detector` is always allowed; `get_detector` lets a
`ValueError` escape exactly for names outside the allow-list (the
symlink-check `ValueError` is swallowed by the `except` clause and
re-raised as `FileNotFoundError`), hence the route never sees a
`ValueError` and every detector it loads is an allowed model. -/
theorem C10_model_fallback :
    (∀ form : Option String, chooseModelImage form ∈ ALLOWED_MODELS) ∧
    (∀ m : String, m ∉ ALLOWED_MODELS →
        chooseModelImage (some m) = "yolov12l-face.pt") ∧
    (∀ (cache : List String) (rr ir fe : Bool) (name : String),
        (∃ msg, get_detector cache rr ir fe name = .valueError msg) ↔
          secure_filename name ∉ ALLOWED_MODELS) ∧
    (∀ (cache : List String) (rr ir fe : Bool) (form : Option String)
        (msg : String),
        get_detector cache rr ir fe (chooseModelImage form) ≠ .valueError msg) ∧
    (∀ (cache : List String) (rr ir fe : Bool) (name m : String),
        get_detector cache rr ir fe name = .ok m → m ∈ ALLOWED_MODELS) := by
  have hchoose : ∀ form : Option String,
      chooseModelImage form ∈ ALLOWED_MODELS := by
    intro form
    by_cases h : form.getD "yolov12l-face.pt" ∈ ALLOWED_MODELS
    · simp [chooseModelImage, h]
    · simp only [chooseModelImage, if_neg h]
      decide
  have hval : ∀ (cache : List String) (rr ir fe : Bool) (name : String),
      (∃ msg, get_detector cache rr ir fe name = .valueError msg) ↔
        secure_filename name ∉ ALLOWED_MODELS := by
    intro cache rr ir fe name
    constructor
    · rintro ⟨msg, hmsg⟩ hmem
      unfold get_detector at hmsg
      rw [if_pos hmem] at hmsg
      split_ifs at hmsg
    · intro h
      exact ⟨_, by rw [get_detector, if_neg h]⟩
  have hok : ∀ (cache : List String) (rr ir fe : Bool) (name m : String),
      get_detector cache rr ir fe name = .ok m → m ∈ ALLOWED_MODELS := by
    intro cache rr ir fe name m hm
    unfold get_detector at hm
    by_cases hmem : secure_filename name ∈ ALLOWED_MODELS
    · rw [if_pos hmem] at hm
      split_ifs at hm <;> simp_all
    · rw [if_neg hmem] at hm
      simp at hm
  refine ⟨hchoose, ?_, hval, ?_, hok⟩
  · intro m hm
    simp [chooseModelImage, hm]
  · intro cache rr ir fe form msg h
    have h1 := hchoose form
    have h2 : secure_filename (chooseModelImage form) ∈ ALLOWED_MODELS := by
      rw [secure_filename_allowed _ h1]; exact h1
    exact (hval cache rr ir fe (chooseModelImage form)).1 ⟨msg, h⟩ h2

/-- Witness for C10: the disallowed name `"hack.pt"` falls back to the
default in the route, raises `ValueError` in a direct `get_detector`
call, and a loaded model is allowed. -/
theorem C10_model_fallback_witness :
    chooseModelImage (some "hack.pt") = "yolov12l-face.pt" ∧
    (∃ msg, get_detector [] false true true "hack.pt" = .valueError msg) ∧
    "yolov12n-face.pt" ∈ ALLOWED_MODELS :=
  ⟨C10_model_fallback.2.1 "hack.pt" (by decide),
   (C10_model_fallback.2.2.1 [] false true true "hack.pt").2 (by decide),
   C10_model_fallback.2.2.2.2 [] false true true "yolov12n-face.pt"
     "yolov12n-face.pt" (by decide)⟩

theorem renderMeter_detectPhase (N : ℕ) (det : List Detection) (t : ℚ)
    (s : LoopState) : renderMeter (detectPhase N det t s) = renderMeter s := by
  unfold detectPhase renderMeter
  split <;> (try split) <;> rfl

theorem renderMeter_renderPhase (t : ℚ) (s : LoopState) :
    renderMeter (renderPhase t s) = (renderMeter s).tick t := by
  simp only [renderMeter, renderPhase, RateWindow.tick]
  split_ifs <;> rfl

theorem detectionMeter_renderPhase (t : ℚ) (s : LoopState) :
    detectionMeter (renderPhase t s) = detectionMeter s := by
  unfold renderPhase detectionMeter
  split <;> rfl

theorem detectionMeter_detectPhase_detect (N : ℕ) (det : List Detection)
    (t : ℚ) (s : LoopState) (h : (s.frame_count % N == 0) = true) :
    detectionMeter (detectPhase N det t s) = (detectionMeter s).tick t := by
  simp only [detectionMeter, detectPhase, RateWindow.tick, if_pos h]
  split_ifs <;> rfl

/-- C4: each of the two rate meters obeys the windowed contract — a tick
with elapsed `< 1` second leaves the published rate unchanged (count
accumulates, window stays open); a tick with elapsed `≥ 1` publishes
`count / elapsed`, zeroes the counter and reopens the window at the
current time. The loop's render meter always steps by `tick` and never
touches the detection meter's fields; the detection meter steps by
`tick` exactly on detect frames and is untouched on skip frames, so the
two meters share no state. Thirty ticks uniformly spaced across one
second report a rate of exactly 30, and a window with zero ticks leaves
the previous rate (the rate only changes inside a tick). -/
theorem C4_rate_meter :
    (∀ (w : RateWindow) (t : ℚ), t - w.window_start < 1 →
        (w.tick t).rate = w.rate ∧ (w.tick t).count = w.count + 1 ∧
          (w.tick t).window_start = w.window_start) ∧
    (∀ (w : RateWindow) (t : ℚ), 1 ≤ t - w.window_start →
        (w.tick t).rate = ((w.count : ℚ) + 1) / (t - w.window_start) ∧
          (w.tick t).count = 0 ∧ (w.tick t).window_start = t) ∧
    (∀ (N : ℕ) (det : List Detection) (t : ℚ) (s : LoopState),
        renderMeter (stepFrame N det t s) = (renderMeter s).tick t ∧
        ((s.frame_count % N == 0) = true →
          detectionMeter (detectPhase N det t s) = (detectionMeter s).tick t) ∧
        ((s.frame_count % N == 0) = false →
          detectionMeter (stepFrame N det t s) = detectionMeter s)) ∧
    (∀ r0 : ℚ,
        (((List.range 30).map (fun k => ((k : ℚ) + 1) / 30)).foldl
            RateWindow.tick ⟨0, 0, r0⟩).rate = 30) ∧
    (∀ w : RateWindow, ([] : List ℚ).foldl RateWindow.tick w = w) := by
  refine ⟨?_, ?_, ?_, ?_, fun w => rfl⟩
  · intro w t h
    unfold RateWindow.tick
    rw [if_neg (not_le.2 h)]
    exact ⟨rfl, rfl, rfl⟩
  · intro w t h
    unfold RateWindow.tick
    rw [if_pos h]
    refine ⟨by push_cast; ring_nf, rfl, rfl⟩
  · intro N det t s
    refine ⟨?_, detectionMeter_detectPhase_detect N det t s, ?_⟩
    · rw [stepFrame, renderMeter_renderPhase, renderMeter_detectPhase]
    · intro h
      rw [stepFrame, detectionMeter_renderPhase, detectPhase_skip N det t s h]
  · intro r0
    norm_num [List.range_succ, RateWindow.tick]

/-- Witness for C4: a mid-window tick, a window-closing tick, a detect
frame and a skip frame, all at concrete inputs. -/
theorem C4_rate_meter_witness :
    ((RateWindow.mk 0 0 5).tick (1/2)).rate = (RateWindow.mk 0 0 5).rate ∧
    ((RateWindow.mk 3 0 5).tick 2).rate =
      (((RateWindow.mk 3 0 5).count : ℚ) + 1) /
        (2 - (RateWindow.mk 3 0 5).window_start) ∧
    detectionMeter (detectPhase 2 [] 0 (initState 0)) =
      (detectionMeter (initState 0)).tick 0 ∧
    detectionMeter (stepFrame 2 [] 0 { initState 0 with frame_count := 1 }) =
      detectionMeter { initState 0 with frame_count := 1 } :=
  ⟨(C4_rate_meter.1 ⟨0, 0, 5⟩ (1/2) (by norm_num)).1,
   (C4_rate_meter.2.1 ⟨3, 0, 5⟩ 2 (by norm_num)).1,
   (C4_rate_meter.2.2.1 2 [] 0 (initState 0)).2.1 (by decide),
   (C4_rate_meter.2.2.1 2 [] 0 { initState 0 with frame_count := 1 }).2.2
     (by decide)⟩

theorem stepFrame_no_reset (N : ℕ) (det : List Detection) (t : ℚ)
    (s : LoopState) (h : t - s.last_time < 1) :
    (stepFrame N det t s).frame_count = s.frame_count + 1 ∧
      (stepFrame N det t s).last_time = s.last_time := by
  have h2 : t - (detectPhase N det t s).last_time < 1 := by
    rw [detectPhase_last_time]; exact h
  have h3 := renderPhase_no_reset t (detectPhase N det t s) h2
  rw [stepFrame]
  exact ⟨by rw [h3.1, detectPhase_frame_count],
    by rw [h3.2, detectPhase_last_time]⟩

theorem detectFlags_no_reset (N : ℕ) :
    ∀ (frames : List (ℚ × List Detection)) (s : LoopState),
      (∀ f ∈ frames, f.1 - s.last_time < 1) →
      detectFlags N s frames =
        (List.range frames.length).map
          (fun i => (s.frame_count + i) % N == 0) := by
  intro frames
  induction frames with
  | nil => intro s _; rfl
  | cons f fs ih =>
    intro s hts
    have hhead : f.1 - s.last_time < 1 := hts f (List.mem_cons_self f fs)
    have hstep := stepFrame_no_reset N f.2 f.1 s hhead
    have htail : ∀ g ∈ fs, g.1 - (stepFrame N f.2 f.1 s).last_time < 1 := by
      intro g hg
      rw [hstep.2]
      exact hts g (List.mem_cons_of_mem f hg)
    show (s.frame_count % N == 0) :: detectFlags N (stepFrame N f.2 f.1 s) fs = _
    rw [ih (stepFrame N f.2 f.1 s) htail, hstep.1]
    rw [List.length_cons, List.range_succ_eq_map, List.map_cons, List.map_map]
    refine congrArg₂ _ (by simp) ?_
    refine List.map_congr_left (fun i _ => ?_)
    have harith : s.frame_count + 1 + i = s.frame_count + (i + 1) := by omega
    simp [Function.comp, Nat.succ_eq_add_one, harith]

theorem count_true_multiples (N : ℕ) (hN : 0 < N) :
    ∀ K : ℕ,
      ((List.range K).map (fun i => i % N == 0)).count true = (K + N - 1) / N := by
  intro K
  induction K with
  | zero =>
    have : (0 + N - 1) / N = 0 := Nat.div_eq_of_lt (by omega)
    simpa using this.symm
  | succ K ih =>
    rw [List.range_succ, List.map_append, List.count_append, ih]
    have hsub : K + N - 1 + 1 = K + N := by omega
    have hKN : K + 1 + N - 1 = K + N := by omega
    rw [hKN, ← hsub, Nat.succ_div, hsub]
    have hiff : ((K % N == 0) = true) ↔ (N ∣ K + N) := by
      rw [beq_iff_eq, Nat.dvd_add_self_right]
      exact Nat.dvd_iff_mod_eq_zero.symm
    simp only [List.map_cons, List.map_nil, List.count_cons, List.count_nil,
      beq_iff_eq, Nat.zero_add]
    congr 1
    rw [beq_iff_eq] at hiff
    exact if_congr hiff rfl rfl

/-- C1 amended: as long as no render-rate window reset occurs during the
run (every frame arrives within one second of the window opening, so the
internal `frame_count` is the true frame index), a run of `K` frames at
skip interval `N > 0` invokes the detector exactly on the frames of
index `0, N, 2N, …` — `⌈K/N⌉ = (K+N-1)/N` invocations in total — and on
every other frame the cached detections are reused and the cache is left
unchanged. (The unconditional claim fails: `frame_count` doubles as the
FPS counter and is zeroed each 1-second window, see the
counterexample.) -/
theorem C1_detector_schedule (N : ℕ) (hN : 0 < N) (s : LoopState)
    (h0 : s.frame_count = 0) (frames : List (ℚ × List Detection))
    (hts : ∀ f ∈ frames, f.1 - s.last_time < 1) :
    detectFlags N s frames =
        (List.range frames.length).map (fun i => i % N == 0) ∧
      (detectFlags N s frames).count true = (frames.length + N - 1) / N ∧
      ∀ (det : List Detection) (t : ℚ) (s' : LoopState),
        (s'.frame_count % N == 0) = false →
        renderedDet N det s' = cacheGet s'.current_detections ∧
        (stepFrame N det t s').current_detections = s'.current_detections := by
  have hflags := detectFlags_no_reset N frames s hts
  rw [h0] at hflags
  simp only [Nat.zero_add] at hflags
  refine ⟨hflags, ?_, ?_⟩
  · rw [hflags, count_true_multiples N hN frames.length]
  · intro det t s' hskip
    exact ⟨by simp [renderedDet, hskip],
      by rw [stepFrame, renderPhase_cache, detectPhase_skip N det t s' hskip]⟩

/-- C1 counterexample: skip interval `N = 2`, a run of `K = 2` frames at
times `3/2` and `8/5` (window opened at `0`). The first frame crosses
the 1-second FPS window, so `frame_count` is reset to `0` and the second
frame — global index `1`, with `1 % 2 ≠ 0` — triggers the detector
again: 2 invocations, while `⌈K/N⌉ = 1`. -/
theorem C1_counterexample :
    detectFlags 2 (initState 0) [((3:ℚ)/2, []), ((8:ℚ)/5, [])] = [true, true] ∧
      (detectFlags 2 (initState 0) [((3:ℚ)/2, []), ((8:ℚ)/5, [])]).count true
          = 2 ∧
      ([((3:ℚ)/2, ([] : List Detection)), ((8:ℚ)/5, [])].length + 2 - 1) / 2
          = 1 := by
  refine ⟨?_, ?_, rfl⟩
  · norm_num [detectFlags, stepFrame, detectPhase, renderPhase, initState]
  · norm_num [detectFlags, stepFrame, detectPhase, renderPhase, initState,
      List.count]

/-- Witness for the amended C1: three frames inside the first second at
`N = 2` detect on indices 0 and 2, i.e. `⌈3/2⌉ = 2` invocations. -/
theorem C1_detector_schedule_witness :
    (0 : ℕ) < 2 ∧ (initState 0).frame_count = 0 ∧
    detectFlags 2 (initState 0) [((0:ℚ), []), ((1:ℚ)/2, []), ((3:ℚ)/4, [])] =
      (List.range 3).map (fun i => i % 2 == 0) ∧
    (detectFlags 2 (initState 0)
        [((0:ℚ), []), ((1:ℚ)/2, []), ((3:ℚ)/4, [])]).count true =
      (3 + 2 - 1) / 2 := by
  have h := C1_detector_schedule 2 (by decide) (initState 0) rfl
      [((0:ℚ), []), ((1:ℚ)/2, []), ((3:ℚ)/4, [])]
      (by intro f hf; fin_cases hf <;> norm_num [initState])
  exact ⟨by decide, rfl, h.1, h.2.1⟩

end FaceDetect
